import Mathlib

/-!
Shallow embedding of the model-viewer scene-graph facade layer
(`Material` and `TextureInfo` facades for Three.js materials) and of the
space-opera hotspot reducer, translated from the TypeScript source.

Modelling conventions:
* A JS `Set` of renderer objects is embedded as a `List` in iteration
  (insertion) order; mutation of the members is explicit state passing.
* `undefined` / absent glTF fields are `Option.none`.
* JS numbers that the facade writes (`alphaTest`, `alphaCutoff`,
  emissive channels) are embedded as `Rat`; the only literals involved
  (`0.5`, `-0.5`, `0`) are exact in every binary floating point format,
  so rational arithmetic is faithful here.
* A setter that would throw a `TypeError` (iterating a `null` correlated
  set) returns `Option.none`; a normal return is `Option.some` of the new
  state paired with the number of `onUpdate` callback invocations.
* Three.js textures are identified by a `Nat` handle; the `encoding` tag
  the facade stamps onto the texture object is returned explicitly.
-/

/-- RGB triple, as passed to `setEmissiveFactor`. -/
abbrev RGB := Rat × Rat × Rat

/-- The source's `0.5` literal (the default alpha cutoff), given as a raw
normalized rational so that the kernel can evaluate comparisons on it;
`half_eq_one_div_two` below checks it is `1 / 2`. -/
def half : Rat := ⟨1, 2, by norm_num, by norm_num⟩

/-- The source's `-0.5` literal (the alpha-test value forced onto opaque
materials); `negHalf_eq` below checks it is `-(1 / 2)`. -/
def negHalf : Rat := ⟨-1, 2, by norm_num, by simp⟩

/-- glTF alpha mode enum (`'OPAQUE' | 'MASK' | 'BLEND'`). -/
inductive AlphaMode where
  | OPAQUE
  | MASK
  | BLEND
deriving DecidableEq, Repr

/-- Three.js face culling side constants used by `setDoubleSided`. -/
inductive Side where
  | FrontSide
  | DoubleSide
deriving DecidableEq, Repr

/-- Three.js texture encoding tags used by `TextureInfo.setTexture`. -/
inductive TextureEncoding where
  | sRGBEncoding
  | LinearEncoding
deriving DecidableEq, Repr

/-- `TextureUsage` enum from `texture-info.ts`: what a texture is used for. -/
inductive TextureUsage where
  | Base
  | Metallic
  | Normal
  | Occlusion
  | Emissive
deriving DecidableEq, Repr

/-- The slice of a Three.js `MeshStandardMaterial` that the facade layer
reads or writes: emissive color, alpha-test threshold, transparency and
depth-write flags, culling side, the five texture slots and the
`needsUpdate` dirty flag. -/
structure MeshStandardMaterial where
  emissive : RGB
  alphaTest : Rat
  transparent : Bool
  depthWrite : Bool
  side : Side
  map : Option Nat
  metalnessMap : Option Nat
  normalMap : Option Nat
  aoMap : Option Nat
  emissiveMap : Option Nat
  needsUpdate : Bool
deriving DecidableEq, Repr

/-- A freshly constructed Three.js `MeshStandardMaterial` (library
defaults: `alphaTest = 0`, `transparent = false`, `depthWrite = true`,
`side = FrontSide`, no texture slots assigned). -/
def defaultMaterial : MeshStandardMaterial :=
  { emissive := (0, 0, 0)
    alphaTest := 0
    transparent := false
    depthWrite := true
    side := Side.FrontSide
    map := none
    metalnessMap := none
    normalMap := none
    aoMap := none
    emissiveMap := none
    needsUpdate := false }

/-- The glTF source-document fragment (`$sourceObject`) that backs a
`Material` facade: the fields the embedded setters and getters touch.
`none` is JS `undefined` (the field absent from the document). -/
structure GLTFMaterial where
  emissiveFactor : Option RGB
  alphaMode : Option AlphaMode
  alphaCutoff : Option Rat
  doubleSided : Option Bool
deriving DecidableEq, Repr

/-- State of a `Material` facade: the correlated renderer objects
(`$correlatedObjects`, `none` when the facade is document-only) and the
source-document fragment (`$sourceObject`). -/
structure MaterialState where
  correlatedObjects : Option (List MeshStandardMaterial)
  sourceObject : GLTFMaterial
deriving DecidableEq, Repr

/-- `Texture` facade as consumed by `TextureInfo.setTexture`: the only
thing the setter reads from it is `texture.source[$sourceTexture]`, the
handle of the underlying Three.js texture. -/
structure Texture where
  sourceTexture : Nat
deriving DecidableEq, Repr

/-- Result of `TextureInfo.setTexture`: the (possibly `null`) correlated
material set after the mutation, the facade's stored `$texture`
reference, the encoding tag stamped onto the Three.js texture object
(`none` when no texture was provided, so nothing was stamped), and the
number of `onUpdate` invocations. -/
structure SetTextureResult where
  materials : Option (List MeshStandardMaterial)
  texture : Option Texture
  stampedEncoding : Option TextureEncoding
  callbackCount : Nat
deriving DecidableEq, Repr

/-- The loop body of `TextureInfo.setTexture`: iterates the correlated
material set in order, assigning `threeTexture` to the slot selected by
the usage switch, updating the local `encoding` variable in the
`Metallic`/`Normal`/`Occlusion` cases, and setting `needsUpdate` on each
material. Returns the updated list and the final `encoding` value. -/
def setTextureLoop (usage : TextureUsage) (threeTexture : Option Nat) :
    List MeshStandardMaterial → TextureEncoding →
    List MeshStandardMaterial × TextureEncoding
  | [], enc => ([], enc)
  | m :: rest, enc =>
    let step : MeshStandardMaterial × TextureEncoding :=
      match usage with
      | TextureUsage.Base => ({ m with map := threeTexture }, enc)
      | TextureUsage.Metallic =>
        ({ m with metalnessMap := threeTexture }, TextureEncoding.LinearEncoding)
      | TextureUsage.Normal =>
        ({ m with normalMap := threeTexture }, TextureEncoding.LinearEncoding)
      | TextureUsage.Occlusion =>
        ({ m with aoMap := threeTexture }, TextureEncoding.LinearEncoding)
      | TextureUsage.Emissive => ({ m with emissiveMap := threeTexture }, enc)
    let tail := setTextureLoop usage threeTexture rest step.2
    ({ step.1 with needsUpdate := true } :: tail.1, tail.2)

/-- `TextureInfo.setTexture` from `texture-info.ts`: resolves the
Three.js texture from the facade, initialises the local `encoding`
variable to `sRGBEncoding`, stores the facade reference, runs the
mutation loop when the correlated material set is non-null (a JS `Set`
is truthy even when empty), stamps the final encoding onto the Three.js
texture when one was provided, and fires `onUpdate` once. -/
def TextureInfo.setTexture (usage : TextureUsage)
    (materials : Option (List MeshStandardMaterial)) (texture : Option Texture) :
    SetTextureResult :=
  let threeTexture : Option Nat :=
    match texture with
    | some t => some t.sourceTexture
    | none => none
  match materials with
  | some mats =>
    let r := setTextureLoop usage threeTexture mats TextureEncoding.sRGBEncoding
    { materials := some r.1
      texture := texture
      stampedEncoding :=
        match threeTexture with
        | some _ => some r.2
        | none => none
      callbackCount := 1 }
  | none =>
    { materials := none
      texture := texture
      stampedEncoding :=
        match threeTexture with
        | some _ => some TextureEncoding.sRGBEncoding
        | none => none
      callbackCount := 1 }

/-- The material property that the usage switch of
`TextureInfo.setTexture` writes: the usage-specific texture slot. -/
def slotFor (usage : TextureUsage) (m : MeshStandardMaterial) : Option Nat :=
  match usage with
  | TextureUsage.Base => m.map
  | TextureUsage.Metallic => m.metalnessMap
  | TextureUsage.Normal => m.normalMap
  | TextureUsage.Occlusion => m.aoMap
  | TextureUsage.Emissive => m.emissiveMap

/-- The value the `encoding` local of `TextureInfo.setTexture` holds
after one loop iteration that started at `enc`. -/
def encTarget (usage : TextureUsage) (enc : TextureEncoding) : TextureEncoding :=
  match usage with
  | TextureUsage.Metallic => TextureEncoding.LinearEncoding
  | TextureUsage.Normal => TextureEncoding.LinearEncoding
  | TextureUsage.Occlusion => TextureEncoding.LinearEncoding
  | TextureUsage.Base => enc
  | TextureUsage.Emissive => enc

/-- `Material.setEmissiveFactor`: writes `rgb` into every correlated
material's `emissive` color (`material.emissive.fromArray(rgb)`), then
into the source document, then fires `$onUpdate` once. Iterating a null
correlated set throws, modelled as `none`. -/
def Material.setEmissiveFactor (rgb : RGB) (s : MaterialState) :
    Option (MaterialState × Nat) :=
  match s.correlatedObjects with
  | none => none
  | some mats =>
    some
      ({ correlatedObjects := some (mats.map (fun m => { m with emissive := rgb }))
         sourceObject := { s.sourceObject with emissiveFactor := some rgb } },
       1)

/-- One iteration of the `setAlphaCutoff` loop body applied to a single
correlated material: if the material is currently fully opaque (falsy
`alphaTest`, i.e. `0`, and not `transparent`), force `alphaTest` to
`-0.5` (the glTF-compliance hack); otherwise, when the facade's
`alphaMode` getter (reading the source document) yields `'MASK'`, set
`alphaTest` to `value`. -/
def alphaCutoffApply (alphaMode : Option AlphaMode) (value : Rat)
    (m : MeshStandardMaterial) : MeshStandardMaterial :=
  if m.alphaTest = 0 ∧ m.transparent = false then
    { m with alphaTest := negHalf }
  else if alphaMode = some AlphaMode.MASK then
    { m with alphaTest := value }
  else
    m

/-- The body of `Material.setAlphaCutoff` once the correlated set is
known non-null: apply the per-material update to every correlated
material, persist `value` into the source document's `alphaCutoff`, and
fire `$onUpdate` once. -/
def setAlphaCutoffCore (value : Rat) (mats : List MeshStandardMaterial)
    (doc : GLTFMaterial) : List MeshStandardMaterial × GLTFMaterial × Nat :=
  (mats.map (alphaCutoffApply doc.alphaMode value),
   { doc with alphaCutoff := some value },
   1)

/-- `Material.setAlphaCutoff` from `material.ts`. -/
def Material.setAlphaCutoff (value : Rat) (s : MaterialState) :
    Option (MaterialState × Nat) :=
  match s.correlatedObjects with
  | none => none
  | some mats =>
    let r := setAlphaCutoffCore value mats s.sourceObject
    some ({ correlatedObjects := some r.1, sourceObject := r.2.1 }, r.2.2)

/-- Replace the element at index `i` of a list by `f` of itself (the
effect, on the iteration-order list, of mutating the `i`-th member of
the JS `Set` while iterating it). -/
def modifyIdx (f : MeshStandardMaterial → MeshStandardMaterial) :
    Nat → List MeshStandardMaterial → List MeshStandardMaterial
  | _, [] => []
  | 0, m :: rest => f m :: rest
  | i + 1, m :: rest => m :: modifyIdx f i rest

/-- The loop of `Material.setAlphaMode`, iterating the correlated set by
index (`n` iterations remain, the current index is `i`). Each iteration
mutates the current material according to the mode and, in the `MASK`
case, re-invokes `setAlphaCutoff` (which itself walks the whole current
set, persists the cutoff and fires the callback) with the document's
current `alphaCutoff` or the `0.5` default. In the `BLEND` and `OPAQUE`
cases `$onUpdate` fires directly, once per iteration. Returns the final
material list, document and callback count. -/
def alphaLoop (mode : AlphaMode) :
    Nat → Nat → List MeshStandardMaterial → GLTFMaterial → Nat →
    List MeshStandardMaterial × GLTFMaterial × Nat
  | 0, _, mats, doc, cnt => (mats, doc, cnt)
  | n + 1, i, mats, doc, cnt =>
    match mode with
    | AlphaMode.BLEND =>
      alphaLoop mode n (i + 1)
        (modifyIdx (fun m => { m with transparent := true, depthWrite := false }) i mats)
        doc (cnt + 1)
    | AlphaMode.OPAQUE =>
      alphaLoop mode n (i + 1)
        (modifyIdx (fun m => { m with transparent := false, depthWrite := true }) i mats)
        doc (cnt + 1)
    | AlphaMode.MASK =>
      let mats1 :=
        modifyIdx (fun m => { m with transparent := false, depthWrite := true }) i mats
      let value := doc.alphaCutoff.getD half
      let r := setAlphaCutoffCore value mats1 doc
      alphaLoop mode n (i + 1) r.1 r.2.1 (cnt + r.2.2)

/-- `Material.setAlphaMode` from `material.ts`: persists the mode into
the source document first, then runs the per-material loop. -/
def Material.setAlphaMode (mode : AlphaMode) (s : MaterialState) :
    Option (MaterialState × Nat) :=
  match s.correlatedObjects with
  | none => none
  | some mats =>
    let doc1 := { s.sourceObject with alphaMode := some mode }
    let r := alphaLoop mode mats.length 0 mats doc1 0
    some ({ correlatedObjects := some r.1, sourceObject := r.2.1 }, r.2.2)

/-- `Material.setDoubleSided` from `material.ts`: sets each correlated
material's `side` to `DoubleSide` or `FrontSide` and fires `$onUpdate`
once. Note: the source never writes `doubleSided` into the source
document, so `sourceObject` passes through unchanged. -/
def Material.setDoubleSided (doubleSided : Bool) (s : MaterialState) :
    Option (MaterialState × Nat) :=
  match s.correlatedObjects with
  | none => none
  | some mats =>
    some
      ({ correlatedObjects :=
           some (mats.map (fun m =>
             if doubleSided = true then { m with side := Side.DoubleSide }
             else { m with side := Side.FrontSide }))
         sourceObject := s.sourceObject },
       1)

/-- Hotspot configuration from `hotspot_config.ts`; the reducer only
consults `name`. -/
structure HotspotConfig where
  name : String
  surface : Option String
deriving DecidableEq, Repr

/-- The actions `hotspotsReducer` dispatches on, with their payloads. -/
inductive HotspotAction where
  | setHotspots (payload : List HotspotConfig)
  | clearHotspots
  | removeHotspot (payload : String)
  | updateHotspot (payload : HotspotConfig)
  | addHotspot (payload : HotspotConfig)
  | other
deriving DecidableEq, Repr

/-- `findHotspotIndex` from `reducer.ts`: index of the hotspot with the
given name, or a thrown `Error` (modelled as `Except.error`). -/
def findHotspotIndex (hotspots : List HotspotConfig) (name : String) :
    Except String Nat :=
  match hotspots.findIdx? (fun h => h.name = name) with
  | none => Except.error ("Hotspot name does not exist: " ++ name)
  | some i => Except.ok i

/-- `addHotspot` from `reducer.ts`. The duplicate check consults the
module-global `hotspotNameSet` (embedded as an explicit `nameSet` list);
on success the name joins the set and the config is appended to the
array. A thrown `Error` is `Except.error`. -/
def addHotspot (nameSet : List String) (state : List HotspotConfig)
    (config : HotspotConfig) :
    Except String (List String × List HotspotConfig) :=
  if config.name ∈ nameSet then
    Except.error ("Hotspot name duplicate: " ++ config.name)
  else
    Except.ok (nameSet ++ [config.name], state ++ [config])

/-- `updateHotspot` from `reducer.ts`. `immutableArrayUpdate` (from
`utils/reducer_utils.ts`, not under the provided sources) replaces the
element at the found index, which `List.set` models. -/
def updateHotspot (nameSet : List String) (state : List HotspotConfig)
    (config : HotspotConfig) :
    Except String (List String × List HotspotConfig) :=
  match findHotspotIndex state config.name with
  | Except.error e => Except.error e
  | Except.ok i => Except.ok (nameSet, state.set i config)

/-- `removeHotspot` from `reducer.ts`: splices out the found index and
deletes the name from the module-global set. -/
def removeHotspot (nameSet : List String) (state : List HotspotConfig)
    (name : String) : Except String (List String × List HotspotConfig) :=
  match findHotspotIndex state name with
  | Except.error e => Except.error e
  | Except.ok i => Except.ok (nameSet.erase name, state.eraseIdx i)

/-- `hotspotsReducer` from `reducer.ts`, with the module-global
`hotspotNameSet` threaded explicitly. The result pairs the (possibly
updated) name set with the hotspot array the reducer returns;
`Except.error` is an exception propagating out of the reducer, in which
case no array is returned at all (the previous state stands). -/
def hotspotsReducer (nameSet : List String) (state : List HotspotConfig) :
    HotspotAction → Except String (List String × List HotspotConfig)
  | HotspotAction.setHotspots payload => Except.ok (nameSet, payload)
  | HotspotAction.clearHotspots => Except.ok (nameSet, [])
  | HotspotAction.removeHotspot payload => removeHotspot nameSet state payload
  | HotspotAction.updateHotspot payload => updateHotspot nameSet state payload
  | HotspotAction.addHotspot payload => addHotspot nameSet state payload
  | HotspotAction.other => Except.ok (nameSet, state)

/-! ## Theorems -/

/-- Sanity check: `half` is the rational `1 / 2`. -/
theorem half_eq_one_div_two : half = (1 : Rat) / 2 := by
  apply Rat.ext <;> norm_num [half]

/-- Sanity check: `negHalf` is the rational `-(1 / 2)`. -/
theorem negHalf_eq : negHalf = -((1 : Rat) / 2) := by
  apply Rat.ext <;> norm_num [negHalf]

/-- The `encoding` local of `setTextureLoop` is a fixed point of
`encTarget`: once one iteration has run, further iterations keep it. -/
theorem setTextureLoop_enc_stable (u : TextureUsage) (t : Option Nat) :
    ∀ (l : List MeshStandardMaterial) (e : TextureEncoding),
      (setTextureLoop u t l (encTarget u e)).2 = encTarget u e := by
  intro l
  induction l with
  | nil => intro e; rfl
  | cons m rest ih =>
    intro e
    cases u <;> simpa [setTextureLoop, encTarget] using ih e

/-- After at least one iteration starting at `e`, the `encoding` local of
the `setTexture` loop equals `encTarget u e`. -/
theorem setTextureLoop_enc_cons (u : TextureUsage) (t : Option Nat)
    (m : MeshStandardMaterial) (rest : List MeshStandardMaterial)
    (e : TextureEncoding) :
    (setTextureLoop u t (m :: rest) e).2 = encTarget u e := by
  cases u <;> simpa [setTextureLoop, encTarget] using setTextureLoop_enc_stable _ t rest e

/-- C6: For every TextureInfo with a non-null correlated material set
(non-empty, per the data-model invariant that a live correlated set is
never empty) and every non-null texture, after `setTexture` the encoding
stamped onto the renderer texture is the linear encoding for the
`Metallic`, `Normal` and `Occlusion` usages and the color-managed (sRGB)
encoding for the `Base` and `Emissive` usages. -/
theorem setTexture_encoding_by_usage (u : TextureUsage)
    (m : MeshStandardMaterial) (rest : List MeshStandardMaterial) (t : Texture) :
    (TextureInfo.setTexture u (some (m :: rest)) (some t)).stampedEncoding =
      some (match u with
            | TextureUsage.Metallic => TextureEncoding.LinearEncoding
            | TextureUsage.Normal => TextureEncoding.LinearEncoding
            | TextureUsage.Occlusion => TextureEncoding.LinearEncoding
            | TextureUsage.Base => TextureEncoding.sRGBEncoding
            | TextureUsage.Emissive => TextureEncoding.sRGBEncoding) := by
  have h := setTextureLoop_enc_cons u (some t.sourceTexture) m rest
    TextureEncoding.sRGBEncoding
  cases u <;> simp_all [TextureInfo.setTexture, encTarget]

/-- Every material the `setTexture` loop emits with a null
`threeTexture` has its usage slot cleared. -/
theorem setTextureLoop_clears (u : TextureUsage) :
    ∀ (l : List MeshStandardMaterial) (e : TextureEncoding),
      ∀ m ∈ (setTextureLoop u none l e).1, slotFor u m = none := by
  intro l
  induction l with
  | nil => intro e m hm; simp [setTextureLoop] at hm
  | cons x rest ih =>
    intro e m hm
    cases u <;>
      · simp only [setTextureLoop, List.mem_cons] at hm
        rcases hm with rfl | hm
        · rfl
        · exact ih _ m hm

/-- C7: `setTexture(null)` clears the usage-specific texture slot on
every correlated renderer object and fires the update callback exactly
once; it is a total function of the state (no throw), in particular it
is defined when the slot was already empty. -/
theorem setTexture_null_clears (u : TextureUsage)
    (mats : List MeshStandardMaterial) :
    (TextureInfo.setTexture u (some mats) none).callbackCount = 1 ∧
      ∀ m ∈ (TextureInfo.setTexture u (some mats) none).materials.getD [],
        slotFor u m = none := by
  refine ⟨rfl, ?_⟩
  intro m hm
  simp only [TextureInfo.setTexture, Option.getD_some] at hm
  exact setTextureLoop_clears u mats _ m hm

/-- C10: when the correlated material set is null, `setTexture` with a
non-null texture never reaches the usage switch, so the sRGB default is
stamped onto the renderer texture for every usage, and the callback
still fires once. -/
theorem setTexture_nullMaterials_sRGB (u : TextureUsage) (t : Texture) :
    TextureInfo.setTexture u none (some t) =
      { materials := none
        texture := some t
        stampedEncoding := some TextureEncoding.sRGBEncoding
        callbackCount := 1 } := rfl

/-- C8 (amended): on a document-only facade (null correlated set) the
four `Material` setters iterate `null` and hence throw (modelled as
`none`), while `TextureInfo.setTexture` guards the set and returns
normally, firing its callback once and touching no materials. -/
theorem documentOnly_setter_behavior (d : GLTFMaterial) (rgb : RGB)
    (v : Rat) (mode : AlphaMode) (flag : Bool) (u : TextureUsage)
    (t : Option Texture) :
    Material.setEmissiveFactor rgb ⟨none, d⟩ = none ∧
    Material.setAlphaCutoff v ⟨none, d⟩ = none ∧
    Material.setAlphaMode mode ⟨none, d⟩ = none ∧
    Material.setDoubleSided flag ⟨none, d⟩ = none ∧
    (TextureInfo.setTexture u none t).callbackCount = 1 ∧
    (TextureInfo.setTexture u none t).materials = none :=
  ⟨rfl, rfl, rfl, rfl, rfl, rfl⟩

/-- C8 counterexample: the claim says `Material.setEmissiveFactor`
no-ops safely on a document-only facade, but iterating the null
correlated set throws a `TypeError` (modelled as `none`). -/
theorem setEmissiveFactor_throws_documentOnly :
    Material.setEmissiveFactor ((1 : Rat), (1 : Rat), (1 : Rat))
      ⟨none, ⟨none, none, none, none⟩⟩ = none := rfl

/-- C2: with a non-null correlated set, `setEmissiveFactor(rgb)` writes
`rgb` into every correlated object's emissive color and into the source
document, firing the callback once. -/
theorem setEmissiveFactor_spec (rgb : RGB)
    (mats : List MeshStandardMaterial) (doc : GLTFMaterial) :
    ∃ mats' doc',
      Material.setEmissiveFactor rgb ⟨some mats, doc⟩ =
        some (⟨some mats', doc'⟩, 1) ∧
      (∀ m ∈ mats', m.emissive = rgb) ∧
      doc'.emissiveFactor = some rgb := by
  refine ⟨_, _, rfl, ?_, rfl⟩
  intro m hm
  obtain ⟨x, _, rfl⟩ := List.mem_map.mp hm
  rfl

/-- C3 (code bug): `setDoubleSided(true)` flips every correlated
object's side to `DoubleSide` and fires the callback once, but never
writes the flag into the source document: here the document still says
`doubleSided = false` afterwards, so the `doubleSided` getter (which
reads the document) contradicts the setter. -/
theorem setDoubleSided_not_persisted :
    (Material.setDoubleSided true
        ⟨some [defaultMaterial], ⟨none, none, none, some false⟩⟩).map
        (fun p => (p.1.sourceObject.doubleSided,
                   (p.1.correlatedObjects.getD []).map (fun m => m.side),
                   p.2)) =
      some (some false, [Side.DoubleSide], 1) := by decide

/-- The callback count of the `setAlphaMode` loop is the number of
iterations: every branch (including the `MASK` branch, through its
embedded `setAlphaCutoff` call) fires the callback exactly once per
correlated object. -/
theorem alphaLoop_count (mode : AlphaMode) :
    ∀ (n i : Nat) (mats : List MeshStandardMaterial) (doc : GLTFMaterial)
      (cnt : Nat), (alphaLoop mode n i mats doc cnt).2.2 = cnt + n := by
  intro n
  induction n with
  | zero => intro i mats doc cnt; rfl
  | succ k ih =>
    intro i mats doc cnt
    cases mode <;> simp [alphaLoop, setAlphaCutoffCore, ih] <;> omega

/-- C5 (amended): each `setAlphaMode` call fires the update callback
exactly once per correlated renderer object — `n` times for `n` objects
(not at most twice), and throws on a null correlated set. -/
theorem setAlphaMode_callback_count (mode : AlphaMode) (s : MaterialState) :
    (Material.setAlphaMode mode s).map Prod.snd =
      s.correlatedObjects.map List.length := by
  cases h : s.correlatedObjects with
  | none => simp [Material.setAlphaMode, h]
  | some mats => simp [Material.setAlphaMode, h, alphaLoop_count]

/-- C5 counterexample: with three correlated objects a single
`setAlphaMode('BLEND')` call fires the callback three times, exceeding
the claimed bound of two. -/
theorem setAlphaMode_callback_three_objects :
    (Material.setAlphaMode AlphaMode.BLEND
        ⟨some [defaultMaterial, defaultMaterial, defaultMaterial],
         ⟨none, none, none, none⟩⟩).map Prod.snd = some 3 ∧
      ¬(3 ≤ 2) := by decide

/-- The `setTexture` loop preserves the number of correlated objects. -/
theorem setTextureLoop_length (u : TextureUsage) (t : Option Nat) :
    ∀ (l : List MeshStandardMaterial) (e : TextureEncoding),
      (setTextureLoop u t l e).1.length = l.length := by
  intro l
  induction l with
  | nil => intro e; rfl
  | cons m rest ih =>
    intro e
    cases u <;> simp [setTextureLoop, ih]

/-- On any non-empty list the `encoding` local of the `setTexture` loop
ends at `encTarget u e`. -/
theorem setTextureLoop_enc_ne_nil (u : TextureUsage) (t : Option Nat) :
    ∀ (l : List MeshStandardMaterial) (e : TextureEncoding), l ≠ [] →
      (setTextureLoop u t l e).2 = encTarget u e := by
  intro l e hl
  match l with
  | [] => exact absurd rfl hl
  | m :: rest => exact setTextureLoop_enc_cons u t m rest e

/-- Re-running the `setTexture` loop over its own output reproduces that
output: assigning the same texture to the same slot twice is the same as
once. -/
theorem setTextureLoop_fst_idem (u : TextureUsage) (t : Option Nat) :
    ∀ (l : List MeshStandardMaterial) (e e' : TextureEncoding),
      (setTextureLoop u t ((setTextureLoop u t l e).1) e').1 =
        (setTextureLoop u t l e).1 := by
  intro l
  induction l with
  | nil => intro e e'; rfl
  | cons m rest ih =>
    intro e e'
    cases u <;> simp [setTextureLoop] <;> exact ih _ _

/-- C4 (amended): `setEmissiveFactor`, `setDoubleSided` and `setTexture`
are idempotent — calling any of them twice with the same argument gives
exactly the observable state (and outcome) of calling it once. (The
alpha setters are not: see the counterexample.) -/
theorem setters_idempotent_except_alpha :
    (∀ (rgb : RGB) (s : MaterialState),
       (Material.setEmissiveFactor rgb s).bind
           (fun p => Material.setEmissiveFactor rgb p.1) =
         Material.setEmissiveFactor rgb s) ∧
    (∀ (flag : Bool) (s : MaterialState),
       (Material.setDoubleSided flag s).bind
           (fun p => Material.setDoubleSided flag p.1) =
         Material.setDoubleSided flag s) ∧
    (∀ (u : TextureUsage) (mats : Option (List MeshStandardMaterial))
       (t : Option Texture),
       TextureInfo.setTexture u (TextureInfo.setTexture u mats t).materials t =
         TextureInfo.setTexture u mats t) := by
  refine ⟨?_, ?_, ?_⟩
  · intro rgb s
    cases h : s.correlatedObjects with
    | none => simp [Material.setEmissiveFactor, h]
    | some mats =>
      simp only [Material.setEmissiveFactor, h, Option.some_bind]
      rw [List.map_map]
      rfl
  · intro flag s
    cases h : s.correlatedObjects with
    | none => simp [Material.setDoubleSided, h]
    | some mats =>
      cases flag <;>
        · simp only [Material.setDoubleSided, h, Option.some_bind]
          rw [List.map_map]
          rfl
  · intro u mats t
    cases mats with
    | none => rfl
    | some l =>
      cases l with
      | nil => rfl
      | cons m rest =>
        cases t with
        | none =>
          simp only [TextureInfo.setTexture]
          rw [setTextureLoop_fst_idem]
        | some tex =>
          have hlen := setTextureLoop_length u (some tex.sourceTexture)
            (m :: rest) TextureEncoding.sRGBEncoding
          have hne : (setTextureLoop u (some tex.sourceTexture) (m :: rest)
              TextureEncoding.sRGBEncoding).1 ≠ [] := by
            intro hnil
            rw [hnil] at hlen
            simp at hlen
          simp only [TextureInfo.setTexture]
          rw [setTextureLoop_fst_idem,
            setTextureLoop_enc_ne_nil u (some tex.sourceTexture) _
              TextureEncoding.sRGBEncoding hne,
            setTextureLoop_enc_cons]

/-- C4 counterexample: `setAlphaCutoff` is not idempotent. On a material
with alpha mode `MASK` and a single fully opaque correlated object, the
first `setAlphaCutoff(1)` forces the alpha test to `-0.5` (the opaque
hack), while a second identical call moves it to `1`: the states after
one and after two calls differ. -/
theorem setAlphaCutoff_not_idempotent :
    ((Material.setAlphaCutoff 1
          ⟨some [defaultMaterial], ⟨none, some AlphaMode.MASK, none, none⟩⟩).bind
        (fun p => Material.setAlphaCutoff 1 p.1)).map Prod.fst ≠
      (Material.setAlphaCutoff 1
          ⟨some [defaultMaterial], ⟨none, some AlphaMode.MASK, none, none⟩⟩).map
        Prod.fst := by decide

/-- C9: dispatching `ADD_HOTSPOT` with a config whose name is already
borne by an existing hotspot makes the reducer throw (the module-level
name set contains every existing hotspot's name), so no array is
returned and no entry is added. -/
theorem addHotspot_duplicate_raises (nameSet : List String)
    (state : List HotspotConfig) (config : HotspotConfig)
    (hsync : ∀ c ∈ state, c.name ∈ nameSet)
    (hdup : config.name ∈ state.map (fun c => c.name)) :
    hotspotsReducer nameSet state (HotspotAction.addHotspot config) =
      Except.error ("Hotspot name duplicate: " ++ config.name) := by
  obtain ⟨c, hc, hcn⟩ := List.mem_map.mp hdup
  have hin : config.name ∈ nameSet := hcn ▸ hsync c hc
  simp [hotspotsReducer, addHotspot, hin]

/-- C9 witness: a concrete duplicate insertion raises the error. -/
theorem addHotspot_duplicate_raises_witness :
    hotspotsReducer ["a"] [⟨"a", none⟩]
        (HotspotAction.addHotspot ⟨"a", none⟩) =
      Except.error ("Hotspot name duplicate: " ++ "a") :=
  addHotspot_duplicate_raises ["a"] [⟨"a", none⟩] ⟨"a", none⟩
    (by decide) (by decide)

/-- Every element of `modifyIdx f i l` is an element of `l` or the image
under `f` of one. -/
theorem mem_modifyIdx (f : MeshStandardMaterial → MeshStandardMaterial) :
    ∀ (i : Nat) (l : List MeshStandardMaterial) (x : MeshStandardMaterial),
      x ∈ modifyIdx f i l → x ∈ l ∨ ∃ m ∈ l, x = f m := by
  intro i l
  induction l generalizing i with
  | nil => intro x hx; simp [modifyIdx] at hx
  | cons m rest ih =>
    intro x hx
    cases i with
    | zero =>
      simp only [modifyIdx, List.mem_cons] at hx
      rcases hx with rfl | hx
      · exact Or.inr ⟨m, List.mem_cons_self m rest, rfl⟩
      · exact Or.inl (List.mem_cons_of_mem _ hx)
    | succ j =>
      simp only [modifyIdx, List.mem_cons] at hx
      rcases hx with rfl | hx
      · exact Or.inl (List.mem_cons_self _ _)
      · rcases ih j x hx with h1 | ⟨m2, hm2, rfl⟩
        · exact Or.inl (List.mem_cons_of_mem _ h1)
        · exact Or.inr ⟨m2, List.mem_cons_of_mem _ hm2, rfl⟩

/-- In `MASK` mode with a nonzero cutoff value, one pass of the
`setAlphaCutoff` body always leaves a nonzero alpha test (either the
`-0.5` hack value or the cutoff itself). -/
theorem alphaCutoffApply_alphaTest_ne_zero (v : Rat) (hv : v ≠ 0)
    (m : MeshStandardMaterial) :
    (alphaCutoffApply (some AlphaMode.MASK) v m).alphaTest ≠ 0 := by
  unfold alphaCutoffApply
  split
  · exact (show negHalf ≠ 0 by decide)
  · split
    · exact hv
    · rename_i hmask
      exact absurd rfl hmask

/-- On a material whose alpha test is already nonzero, the
`setAlphaCutoff` body in `MASK` mode writes exactly the cutoff value. -/
theorem alphaCutoffApply_of_ne_zero (v : Rat) (m : MeshStandardMaterial)
    (h : m.alphaTest ≠ 0) :
    alphaCutoffApply (some AlphaMode.MASK) v m = { m with alphaTest := v } := by
  unfold alphaCutoffApply
  rw [if_neg (by simp [h]), if_pos rfl]

/-- Invariant of the `MASK` loop of `setAlphaMode`: once every
correlated object's alpha test is `0.5` and the document carries
`alphaCutoff = 0.5` and `alphaMode = MASK`, any number of further
iterations preserves all three. -/
theorem alphaLoop_MASK_invariant :
    ∀ (n i : Nat) (mats : List MeshStandardMaterial) (doc : GLTFMaterial)
      (cnt : Nat),
      doc.alphaMode = some AlphaMode.MASK →
      doc.alphaCutoff = some half →
      (∀ m ∈ mats, m.alphaTest = half) →
      (∀ m ∈ (alphaLoop AlphaMode.MASK n i mats doc cnt).1,
          m.alphaTest = half) ∧
        (alphaLoop AlphaMode.MASK n i mats doc cnt).2.1.alphaCutoff =
          some half ∧
        (alphaLoop AlphaMode.MASK n i mats doc cnt).2.1.alphaMode =
          some AlphaMode.MASK := by
  intro n
  induction n with
  | zero =>
    intro i mats doc cnt h1 h2 h3
    exact ⟨h3, h2, h1⟩
  | succ k ih =>
    intro i mats doc cnt h1 h2 h3
    simp only [alphaLoop, setAlphaCutoffCore, h1, h2, Option.getD_some]
    refine ih (i + 1) _ _ _ ?_ ?_ ?_
    · simp [h1]
    · simp
    · intro m hm
      obtain ⟨x, hx, rfl⟩ := List.mem_map.mp hm
      have hxt : x.alphaTest = half := by
        rcases mem_modifyIdx _ i mats x hx with hmem | ⟨m2, hm2, rfl⟩
        · exact h3 x hmem
        · simpa using h3 m2 hm2
      rw [alphaCutoffApply_of_ne_zero _ _ (by rw [hxt]; decide)]

/-- Once every correlated object has a nonzero alpha test and the
document already carries `alphaCutoff = 0.5` in `MASK` mode, at least
one further iteration of the `setAlphaMode` loop drives every alpha
test to `0.5` and keeps the document fields. -/
theorem alphaLoop_MASK_from_nonzero :
    ∀ (k i : Nat) (mats : List MeshStandardMaterial) (doc : GLTFMaterial)
      (cnt : Nat),
      doc.alphaMode = some AlphaMode.MASK →
      doc.alphaCutoff = some half →
      (∀ m ∈ mats, m.alphaTest ≠ 0) →
      (∀ m ∈ (alphaLoop AlphaMode.MASK (k + 1) i mats doc cnt).1,
          m.alphaTest = half) ∧
        (alphaLoop AlphaMode.MASK (k + 1) i mats doc cnt).2.1.alphaCutoff =
          some half ∧
        (alphaLoop AlphaMode.MASK (k + 1) i mats doc cnt).2.1.alphaMode =
          some AlphaMode.MASK := by
  intro k i mats doc cnt h1 h2 h3
  simp only [alphaLoop, setAlphaCutoffCore, h1, h2, Option.getD_some]
  refine alphaLoop_MASK_invariant k (i + 1) _ _ _ ?_ ?_ ?_
  · simp [h1]
  · simp
  · intro m hm
    obtain ⟨x, hx, rfl⟩ := List.mem_map.mp hm
    have hxt : x.alphaTest ≠ 0 := by
      rcases mem_modifyIdx _ i mats x hx with hmem | ⟨m2, hm2, rfl⟩
      · exact h3 x hmem
      · simpa using h3 m2 hm2
    rw [alphaCutoffApply_of_ne_zero _ _ hxt]

/-- C1 (amended): on a material whose `alphaMode` and `alphaCutoff` are
both unset, `setAlphaMode('MASK')` yields `alphaMode = 'MASK'` and
`alphaCutoff = 0.5`; every correlated object's alpha-test threshold ends
at `0.5` **except** in the single-correlated-object case when that
object's alpha test was `0` (a fully opaque object): there the opaque
hack inside the re-invoked `setAlphaCutoff` leaves the threshold at
`-0.5` instead. (With two or more objects the later loop iterations see
a nonzero alpha test and overwrite it with `0.5`.) -/
theorem setAlphaMode_MASK_on_unset (m0 : MeshStandardMaterial)
    (rest : List MeshStandardMaterial) (e : Option RGB) (b : Option Bool) :
    ∃ mats' doc' cnt,
      Material.setAlphaMode AlphaMode.MASK
          ⟨some (m0 :: rest), ⟨e, none, none, b⟩⟩ =
        some (⟨some mats', doc'⟩, cnt) ∧
      doc'.alphaMode = some AlphaMode.MASK ∧
      doc'.alphaCutoff = some half ∧
      (rest = [] → m0.alphaTest = 0 →
        mats'.map (fun m => m.alphaTest) = [negHalf]) ∧
      ((rest ≠ [] ∨ m0.alphaTest ≠ 0) → ∀ m ∈ mats', m.alphaTest = half) := by
  cases rest with
  | nil =>
    refine ⟨[alphaCutoffApply (some AlphaMode.MASK) half
        { m0 with transparent := false, depthWrite := true }],
      ⟨e, some AlphaMode.MASK, some half, b⟩, 1, rfl, rfl, rfl, ?_, ?_⟩
    · intro _ h0
      simp [alphaCutoffApply, h0]
    · intro hcase
      rcases hcase with hcase | hcase
      · exact absurd rfl hcase
      · intro m hm
        rw [List.mem_singleton] at hm
        subst hm
        have h4 := alphaCutoffApply_of_ne_zero half
          { m0 with transparent := false, depthWrite := true } hcase
        rw [h4]
  | cons m1 rest' =>
    have hne : ∀ m ∈ ({ m0 with transparent := false, depthWrite := true } ::
        m1 :: rest').map (alphaCutoffApply (some AlphaMode.MASK) half),
        m.alphaTest ≠ 0 := by
      intro m hm
      obtain ⟨x, _, rfl⟩ := List.mem_map.mp hm
      exact alphaCutoffApply_alphaTest_ne_zero half (by decide) x
    have key := alphaLoop_MASK_from_nonzero rest'.length 1
      (({ m0 with transparent := false, depthWrite := true } ::
          m1 :: rest').map (alphaCutoffApply (some AlphaMode.MASK) half))
      ⟨e, some AlphaMode.MASK, some half, b⟩ 1 rfl rfl hne
    refine ⟨_, _, _, rfl, key.2.2, key.2.1, ?_, fun _ => key.1⟩
    intro habs
    exact absurd habs (List.cons_ne_nil _ _)

/-- C1 witness: the amended statement instantiated on a material with
two default (fully opaque) correlated objects and a fully unset
document: both thresholds end at `0.5`. -/
theorem setAlphaMode_MASK_on_unset_witness :
    ∃ mats' doc' cnt,
      Material.setAlphaMode AlphaMode.MASK
          ⟨some (defaultMaterial :: [defaultMaterial]),
           ⟨none, none, none, none⟩⟩ =
        some (⟨some mats', doc'⟩, cnt) ∧
      doc'.alphaMode = some AlphaMode.MASK ∧
      doc'.alphaCutoff = some half ∧
      ([defaultMaterial] = [] → defaultMaterial.alphaTest = 0 →
        mats'.map (fun m => m.alphaTest) = [negHalf]) ∧
      (([defaultMaterial] ≠ [] ∨ defaultMaterial.alphaTest ≠ 0) →
        ∀ m ∈ mats', m.alphaTest = half) :=
  setAlphaMode_MASK_on_unset defaultMaterial [defaultMaterial] none none

/-- C1 counterexample: with a single default (fully opaque) correlated
object and `alphaMode`/`alphaCutoff` unset, `setAlphaMode('MASK')`
leaves the object's alpha-test threshold at `-0.5`, not the claimed
`0.5`. -/
theorem setAlphaMode_MASK_single_object_threshold :
    (Material.setAlphaMode AlphaMode.MASK
          ⟨some [defaultMaterial], ⟨none, none, none, none⟩⟩).map
        (fun p => (p.1.correlatedObjects.getD []).map (fun m => m.alphaTest)) =
      some [negHalf] ∧ negHalf ≠ half := by decide
